import Mathlib

/-!
Verification of the loan service (`loan/models.py`, `loan/app.py`).

The Python code is shallowly embedded: SQLAlchemy sessions become an explicit
`DB` value threaded through the operations, raised exceptions become
`Except Err`, Python floats become `ℚ`, and timestamps become `ℤ` instants
(the code normalises every date to an aware timestamp in a consistent local
timezone before comparing, so a single integer timeline is faithful).
External libraries (dateutil's ISO-8601 parser, bcrypt, PyJWT) are not
repository code; they are modelled by explicit parameters or small
executable stand-ins documented at their definitions.
-/

/-- The exception taxonomy of `loan/models.py` (`BadRequest` is the spec's
`InvalidInput`, carrying the exception message shown to the caller). -/
inductive Err where
  | badRequest (msg : String)
  | unauthorized (msg : String)
  | forbidden (msg : String)
  | notFound (msg : String)
  | conflict (msg : String)
deriving DecidableEq, Repr

/-- `true` exactly on the errors of class `BadRequest` (the spec's
`InvalidInput`). -/
def Except.isBadRequest {α : Type} : Except Err α → Bool
  | .error (.badRequest _) => true
  | _ => false

/-- The numeric value of a decimal digit character, `none` otherwise. -/
def digit? (c : Char) : Option ℕ :=
  if c = '0' then some 0 else if c = '1' then some 1 else if c = '2' then some 2
  else if c = '3' then some 3 else if c = '4' then some 4 else if c = '5' then some 5
  else if c = '6' then some 6 else if c = '7' then some 7 else if c = '8' then some 8
  else if c = '9' then some 9 else none

/-- Reads a run of decimal digits as a number, failing on any other
character. -/
def digitsToNat : List Char → ℕ → Option ℕ
  | [], acc => some acc
  | c :: cs, acc =>
    match digit? c with
    | none => none
    | some d => digitsToNat cs (10 * acc + d)

/-- Modelled from the spec: `dateutil.parser.parse` (an external library) turns
an ISO-8601 string into a timestamp and raises `ValueError` on anything else,
including the empty string.  We model instants as integers and "ISO-8601
strings" as decimal digit strings denoting the instant; every other string
(in particular `""`) fails to parse. -/
def parseIso (s : String) : Option ℤ :=
  match s.data with
  | [] => none
  | cs => (digitsToNat cs 0).map Int.ofNat

/-- Python-2 `round(x, 2)` on the nonnegative values this code rounds
(half away from zero at two decimal places). -/
def round2 (x : ℚ) : ℚ :=
  (Int.floor (x * 100 + 1 / 2) : ℚ) / 100

/-- Python truthiness of an optional string: `None` and `""` are falsy
(`if until_date:` / `if not jwt_token:` in the source). -/
def pyTruthy : Option String → Bool
  | none => false
  | some s => !(s == "")

/-- A row of the `users` table. -/
structure User where
  id : String
  email : String
  h_password : String
  salt : String
deriving DecidableEq, Repr

/-- A row of the `loans` table (fields already validated:
`_validate_amount`, `_validate_rate`, `_validate_date` ran on assignment). -/
structure Loan where
  id : String
  amount : ℤ
  term : ℕ
  rate : ℚ
  date : ℤ
deriving DecidableEq, Repr

/-- A row of the `payments` table; `payment` is the status enum
(`'made'` or `'missed'`). -/
structure Payment where
  id : ℕ
  date : ℤ
  amount : ℚ
  payment : String
  loan_id : String
deriving DecidableEq, Repr

/-- The database: the three relations owned by the models. -/
structure DB where
  users : List User
  loans : List Loan
  payments : List Payment
deriving DecidableEq, Repr

/-- The decoded claims of a JWT (`user_id` may be absent: the corrupted case). -/
structure JwtPayload where
  user_id : Option String
  exp : ℤ
deriving DecidableEq, Repr

/-- A token presented by a caller: either its signature does not verify
(or it is not well formed), or it is a correctly signed payload. -/
inductive Jwt where
  | malformed
  | signed (payload : JwtPayload)
deriving DecidableEq, Repr

/-- Outcome of `jwt.decode` (PyJWT, an external library): `decodeError` for a
bad signature or malformed token, `expiredSignature` when the `exp` claim has
passed at decode time. -/
inductive DecodeResult where
  | decodeError
  | expiredSignature
  | ok (p : JwtPayload)
deriving DecidableEq, Repr

/-- Modelled behaviour of `jwt.decode(token, JWT_SECRET, algorithms=[...])`:
signature failure raises `DecodeError`; a verified token whose `exp` claim is
in the past raises `ExpiredSignatureError`; otherwise the payload is
returned. -/
def jwtDecode (now : ℤ) : Jwt → DecodeResult
  | .malformed => .decodeError
  | .signed p => if p.exp < now then .expiredSignature else .ok p

/-- `User.login` (`models.py`).  The bcrypt hash function is an external
collaborator and is passed in as `hashpw`; `now` stands for
`datetime.utcnow()`.  On success the code signs `{user_id, exp}`; we return
that payload.  Both the unknown-email lookup failure (`NoResultFound`) and the
hash mismatch take the same `except NoResultFound` branch and raise the same
`BadRequest` message. -/
def User.login (hashpw : String → String → String) (now : ℤ) (db : DB)
    (email password : String) : Except Err JwtPayload :=
  match db.users.find? (fun u => u.email == email) with
  | none => .error (.badRequest ("User '" ++ email ++ "' login failed"))
  | some u =>
    if u.h_password ≠ hashpw password u.salt then
      .error (.badRequest ("User '" ++ email ++ "' login failed"))
    else
      .ok ⟨some u.id, now + 600⟩

/-- `User.authenticate` (`models.py`): reject a falsy token with `Forbidden`;
decode; `DecodeError` becomes `BadRequest "Token is invalid"`,
`ExpiredSignatureError` becomes `BadRequest "Token is expired"`; a payload
without `user_id` becomes `BadRequest "Token is corrupted"`; an unknown
`user_id` becomes `Unauthorized`. -/
def User.authenticate (now : ℤ) (db : DB) (jwt_token : Option Jwt) :
    Except Err Unit :=
  match jwt_token with
  | none => .error (.forbidden "Access denied")
  | some t =>
    match jwtDecode now t with
    | .decodeError => .error (.badRequest "Token is invalid")
    | .expiredSignature => .error (.badRequest "Token is expired")
    | .ok p =>
      match p.user_id with
      | none => .error (.badRequest "Token is corrupted")
      | some uid =>
        if db.users.any (fun u => u.id == uid) then .ok ()
        else .error (.unauthorized "User is not authorized")

/-- `User.add` composed with the `email` validator (`_validate_input` runs
when `User(email=...)` is constructed, `add` then stores the salted hash).
`id` and `salt` stand for the freshly generated `uuid4` and `bcrypt.gensalt()`.
The `IntegrityError` raised on a duplicate `email` (unique column) is caught,
the session rolled back, and nothing is raised: the database is returned
unchanged. -/
def User.register (hashpw : String → String → String) (id salt : String)
    (db : DB) (email : Option String) (password : String) : Except Err DB :=
  match email with
  | none => .error (.badRequest "'email' field required")
  | some e =>
    if !(e.data.contains '@') then
      .error (.badRequest "Invalid email address provided")
    else if db.users.any (fun u => u.email == e) then
      .ok db
    else
      .ok { db with users := db.users ++ [⟨id, e, hashpw password salt, salt⟩] }

/-- The payload handed to `Loan(**payload)` by the HTTP layer
(absent keys are `none`). -/
structure LoanPayload where
  amount : Option ℤ
  term : Option ℤ
  rate : Option ℚ
  date : Option String
deriving DecidableEq, Repr

/-- `Loan(**payload)`: the assignment-time validators `_validate_amount`
(for `amount` and `term`), `_validate_rate` and `_validate_date`.
`rate` is stored as `round(rate, 2)`; `date` is parsed and normalised to an
aware timestamp. -/
def mkLoan (id : String) (p : LoanPayload) : Except Err Loan :=
  match p.amount with
  | none => .error (.badRequest "'amount' field required")
  | some a =>
    if a ≤ 0 then .error (.badRequest "'amount' must be a positive integer")
    else
      match p.term with
      | none => .error (.badRequest "'term' field required")
      | some t =>
        if t ≤ 0 then .error (.badRequest "'term' must be a positive integer")
        else
          match p.rate with
          | none => .error (.badRequest "'rate' field required")
          | some r =>
            if r ≤ 0 ∨ 1 < r then
              .error (.badRequest "'rate' must be a positive percentage")
            else
              match p.date with
              | none => .error (.badRequest "'date' field required")
              | some s =>
                match parseIso s with
                | none => .error
                    (.badRequest "Invalid 'date' provided, please use ISO-8601 standard")
                | some d => .ok ⟨id, a, t.toNat, round2 r, d⟩

/-- `Loan.get` (`models.py`): `query.get(loan_id)`, raising `NotFound` when
no loan with that id exists. -/
def Loan.get (db : DB) (loan_id : String) : Except Err Loan :=
  match db.loans.find? (fun l => l.id == loan_id) with
  | none => .error (.notFound ("Loan '" ++ loan_id ++ "' not found"))
  | some l => .ok l

/-- `Loan.create` (`models.py`): insert and commit; an `IntegrityError`
(duplicate primary key) rolls back and raises `BadRequest`. -/
def Loan.create (db : DB) (l : Loan) : Except Err DB :=
  if db.loans.any (fun x => x.id == l.id) then
    .error (.badRequest "Invalid loan record provided")
  else
    .ok { db with loans := db.loans ++ [l] }

/-- `Loan.calculate_installment` (`models.py`):
`r = rate / 12; round((r + r / ((1 + r) ** term - 1)) * amount, 2)`. -/
def Loan.calculate_installment (l : Loan) : ℚ :=
  let r := l.rate / 12
  round2 ((r + r / ((1 + r) ^ l.term - 1)) * l.amount)

/-- The spec's closed-form amortized-payment formula, stated in its own words:
with monthly rate `r = rate / 12`, the installment is
`(r + r / ((1 + r) ^ term - 1)) * amount` rounded to 2 decimal places. -/
def installmentSpec (amount : ℤ) (term : ℕ) (rate : ℚ) : ℚ :=
  round2 ((rate / 12 + (rate / 12) / ((1 + rate / 12) ^ term - 1)) * amount)

/-- The `POST /loans` handler `create_loan` (`app.py`): construct the loan
from the payload (validators fire), persist it, and return the loan together
with `calculate_installment()`.  `id` stands for the generated `uuid4`. -/
def create_loan (db : DB) (id : String) (p : LoanPayload) :
    Except Err (DB × Loan × ℚ) :=
  match mkLoan id p with
  | .error e => .error e
  | .ok l =>
    match Loan.create db l with
    | .error e => .error e
    | .ok db' => .ok (db', l, l.calculate_installment)

/-- The payment payload handed to `Payment(**payload)` by the HTTP layer. -/
structure PaymentPayload where
  date : Option String
  amount : Option ℚ
  payment : Option String
deriving DecidableEq, Repr

/-- `Payment(**payload)`: the assignment-time validators `_validate_date`,
`_validate_amount` and `_validate_rate` (status) of `Payment`.  `amount` is
stored as `round(amount, 2)`; the row id is assigned later by the database. -/
def mkPayment (loan_id : String) (pl : PaymentPayload) : Except Err Payment :=
  match pl.date with
  | none => .error (.badRequest "'date' field required")
  | some s =>
    match parseIso s with
    | none => .error
        (.badRequest "Invalid 'date' provided, please use ISO-8601 standard")
    | some d =>
      match pl.amount with
      | none => .error (.badRequest "'amount' field required")
      | some a =>
        if a ≤ 0 then .error (.badRequest "'amount' must be a positive value")
        else
          match pl.payment with
          | none => .error (.badRequest "'payment' field required")
          | some st =>
            if st ≠ "made" ∧ st ≠ "missed" then
              .error (.badRequest "'payment' must be 'made' or 'missed'")
            else
              .ok ⟨0, d, round2 a, st, loan_id⟩

/-- `Payment.create` (`models.py`): fetch the owning loan (`NotFound` when
absent), reject a payment dated strictly before the loan's date, otherwise
insert and commit (the autoincrement id is assigned at commit). -/
def Payment.create (db : DB) (q : Payment) : Except Err DB :=
  match Loan.get db q.loan_id with
  | .error e => .error e
  | .ok loan =>
    if loan.date > q.date then
      .error (.badRequest "Payment cannot be executed prior to loan date")
    else
      .ok { db with
            payments := db.payments ++ [{ q with id := db.payments.length + 1 }] }

/-- `Payment.list` (`models.py`): filter by `loan_id`; when `until_date` is
truthy, parse it (`BadRequest` on failure) and keep only payments with
`date <= until_date`; when `only_made`, keep only status `'made'`. -/
def Payment.list (db : DB) (loan_id : String) (until_date : Option String)
    (only_made : Bool) : Except Err (List Payment) :=
  let query := db.payments.filter (fun p => p.loan_id == loan_id)
  if pyTruthy until_date then
    match parseIso (until_date.getD "") with
    | none => .error
        (.badRequest "Invalid 'until_date' provided, please use ISO-8601 standard")
    | some d =>
      let query2 := query.filter (fun p => decide (p.date ≤ d))
      .ok (if only_made then query2.filter (fun p => p.payment == "made") else query2)
  else
    .ok (if only_made then query.filter (fun p => p.payment == "made") else query)

/-- The `POST /loans/<loan_id>/payments` handler `create_payment` (`app.py`):
`Payment(**payload)` runs the field validators first (at construction),
then `payment.create()` fetches the loan and checks the date.  On success the
new database is returned; on any error nothing is persisted. -/
def create_payment (db : DB) (loan_id : String) (pl : PaymentPayload) :
    Except Err DB :=
  match mkPayment loan_id pl with
  | .error e => .error e
  | .ok q => Payment.create db q

/-- The `GET /loans/<loan_id>/balance` handler `fetch_balance` (`app.py`):
start from the loan's amount and subtract each listed payment's amount
(`Payment().list(loan_id, until_date)` with `only_made` defaulted to true). -/
def fetch_balance (db : DB) (loan_id : String) (until_date : Option String) :
    Except Err ℚ :=
  match Loan.get db loan_id with
  | .error e => .error e
  | .ok loan =>
    match Payment.list db loan_id until_date true with
    | .error e => .error e
    | .ok ps => .ok (ps.foldl (fun b p => b - p.amount) (loan.amount : ℚ))

/-- `true` when `x` is within the (inclusive) cutoff, `none` meaning
no cutoff. -/
def cutoffBefore : Option ℤ → ℤ → Bool
  | none, _ => true
  | some d, x => decide (x ≤ d)

/-- The spec's description of `listPayments`: the loan's payments with
`date <= untilDate` (inclusive; no cutoff when absent), restricted to status
`'made'` when `onlyMade`. -/
def listSpec (db : DB) (loan_id : String) (c : Option ℤ) (only_made : Bool) :
    List Payment :=
  db.payments.filter
    (fun p => p.loan_id == loan_id && cutoffBefore c p.date &&
      (!only_made || p.payment == "made"))

/-- The spec's balance-reconstruction algorithm: the principal minus the sum
of the amounts of the loan's made payments up to (and including) the
cutoff. -/
def balanceSpec (db : DB) (loan_id : String) (amount : ℤ) (c : Option ℤ) : ℚ :=
  (amount : ℚ) - ((listSpec db loan_id c true).map Payment.amount).sum

/-! ### Concrete fixtures used by witnesses -/

/-- An empty database. -/
def dbEmpty : DB := ⟨[], [], []⟩

/-- The payload of the repository's `test_loan` fixture (amount 1000,
term 12, rate 0.05), with a digit-string date. -/
def loanPayloadEx : LoanPayload := ⟨some 1000, some 12, some (1 / 20), some "100"⟩

/-- The loan produced from `loanPayloadEx`. -/
def loanEx : Loan := ⟨"L1", 1000, 12, 1 / 20, 100⟩

/-- The database holding just `loanEx`. -/
def dbLoanEx : DB := ⟨[], [loanEx], []⟩

/-! ### Inversion lemmas for the constructors -/

/-- Every loan accepted by the validators has a positive integer amount and
term, and a rate that is the 2-decimal rounding of an input rate in `(0, 1]`. -/
theorem mkLoan_ok_inv (id : String) (p : LoanPayload) (l : Loan)
    (h : mkLoan id p = .ok l) :
    0 < l.amount ∧ 0 < l.term ∧
      ∃ r, p.rate = some r ∧ 0 < r ∧ r ≤ 1 ∧ l.rate = round2 r := by
  unfold mkLoan at h
  split at h
  · simp at h
  split at h
  · simp at h
  split at h
  · simp at h
  split at h
  · simp at h
  split at h
  · simp at h
  split at h
  · simp at h
  split at h
  · simp at h
  split at h
  · simp at h
  injection h with h
  subst h
  dsimp only
  simp_all only [not_or, not_le, not_lt, Option.some.injEq]
  exact ⟨trivial, by omega, _, rfl, by simp_all, by simp_all, rfl⟩

/-- `create_loan` succeeds exactly when the validators accepted the payload
and the insert committed; the returned loan is the constructed one and the
returned installment is its `calculate_installment`. -/
theorem create_loan_ok_inv (db db' : DB) (id : String) (p : LoanPayload)
    (l : Loan) (inst : ℚ) (h : create_loan db id p = .ok (db', l, inst)) :
    mkLoan id p = .ok l ∧ inst = l.calculate_installment := by
  unfold create_loan at h
  split at h
  · simp at h
  rename_i l' hl'
  split at h
  · simp at h
  simp only [Except.ok.injEq, Prod.mk.injEq] at h
  obtain ⟨-, rfl, rfl⟩ := h
  exact ⟨hl', rfl⟩

/-- The source's `calculate_installment` is literally the spec's closed-form
amortized-payment formula applied to the loan's stored fields. -/
theorem calculate_installment_eq_spec (l : Loan) :
    l.calculate_installment = installmentSpec l.amount l.term l.rate := rfl

/-- Rounding to two decimals keeps a rate below one below one. -/
theorem round2_le_one {r : ℚ} (h : r ≤ 1) : round2 r ≤ 1 := by
  unfold round2
  have h1 : (⌊r * 100 + 1 / 2⌋ : ℤ) ≤ ⌊(201 / 2 : ℚ)⌋ :=
    Int.floor_le_floor (by linarith)
  have h2 : (⌊(201 / 2 : ℚ)⌋ : ℤ) = 100 := by norm_num
  rw [div_le_one (by norm_num)]
  exact_mod_cast h1.trans_eq h2

/-! ### C1 and C10: the installment formula and the stored rate -/

/-- Claim C1: for every loan returned by `create_loan` whose fields satisfy
`amount > 0`, `term > 0` and `0 < rate ≤ 1`, the returned installment equals
the closed-form amortized-payment formula `(r + r / ((1+r)^term - 1)) * amount`
with `r = rate / 12`, rounded to 2 decimal places; in particular amount 1000,
term 12, rate 0.05 yields installment 85.61. -/
theorem create_loan_installment_amortized
    (db db' : DB) (id : String) (p : LoanPayload) (l : Loan) (inst : ℚ)
    (h : create_loan db id p = .ok (db', l, inst)) (_hr : 0 < l.rate) :
    (0 < l.amount ∧ 0 < l.term ∧ l.rate ≤ 1 ∧
      inst = installmentSpec l.amount l.term l.rate) ∧
    installmentSpec 1000 12 (1 / 20) = 8561 / 100 := by
  obtain ⟨hmk, hinst⟩ := create_loan_ok_inv db db' id p l inst h
  obtain ⟨ha, ht, r, hpr, hr0, hr1, hrate⟩ := mkLoan_ok_inv id p l hmk
  refine ⟨⟨ha, ht, ?_, hinst.trans (calculate_installment_eq_spec l)⟩, ?_⟩
  · rw [hrate]
    exact round2_le_one hr1
  · norm_num [installmentSpec, round2]

/-- Witness for C1 at the repository's own test fixture
(amount 1000, term 12, rate 0.05). -/
theorem create_loan_installment_amortized_witness :
    (0 < loanEx.amount ∧ 0 < loanEx.term ∧ loanEx.rate ≤ 1 ∧
      (8561 / 100 : ℚ) = installmentSpec loanEx.amount loanEx.term loanEx.rate) ∧
    installmentSpec 1000 12 (1 / 20) = 8561 / 100 :=
  create_loan_installment_amortized dbEmpty dbLoanEx "L1" loanPayloadEx loanEx
    (8561 / 100)
    (by
      simp +decide [create_loan, mkLoan, loanPayloadEx, parseIso, digitsToNat,
        digit?, loanEx, Loan.create, dbEmpty, dbLoanEx, Loan.calculate_installment]
      norm_num [round2])
    (by norm_num [loanEx])

/-- The payload whose rate `1/8 = 0.125` has more than two decimals. -/
def loanPayloadEx8 : LoanPayload := ⟨some 1000, some 12, some (1 / 8), some "100"⟩

/-- The loan stored from `loanPayloadEx8`: its rate is `0.13`, not `0.125`. -/
def loanEx8 : Loan := ⟨"L8", 1000, 12, 13 / 100, 100⟩

/-- The database holding just `loanEx8`. -/
def dbLoanEx8 : DB := ⟨[], [loanEx8], []⟩

/-- Claim C10: the rate stored on a created loan is the input rate rounded to
2 decimal places, every later computation (the installment included) uses that
rounded rate, and an input rate with more than two decimals (such as
`1/8 = 0.125`) is not preserved exactly. -/
theorem create_loan_stores_rounded_rate
    (db db' : DB) (id : String) (p : LoanPayload) (l : Loan) (inst : ℚ) (r : ℚ)
    (h : create_loan db id p = .ok (db', l, inst)) (hr : p.rate = some r) :
    l.rate = round2 r ∧ inst = installmentSpec l.amount l.term (round2 r) ∧
    round2 (1 / 8) ≠ 1 / 8 := by
  obtain ⟨hmk, hinst⟩ := create_loan_ok_inv db db' id p l inst h
  obtain ⟨-, -, r', hpr, -, -, hrate⟩ := mkLoan_ok_inv id p l hmk
  rw [hr] at hpr
  injection hpr with e
  subst e
  refine ⟨hrate, ?_, by norm_num [round2]⟩
  rw [hinst, calculate_installment_eq_spec, hrate]

/-- Witness for C10 at input rate `1/8`: the stored rate is `0.13`. -/
theorem create_loan_stores_rounded_rate_witness :
    loanEx8.rate = round2 (1 / 8) ∧
    loanEx8.calculate_installment =
      installmentSpec loanEx8.amount loanEx8.term (round2 (1 / 8)) ∧
    round2 (1 / 8) ≠ 1 / 8 :=
  create_loan_stores_rounded_rate dbEmpty dbLoanEx8 "L8" loanPayloadEx8 loanEx8
    loanEx8.calculate_installment (1 / 8)
    (by
      simp +decide [create_loan, mkLoan, loanPayloadEx8, parseIso, digitsToNat,
        digit?, loanEx8, Loan.create, dbEmpty, dbLoanEx8]
      norm_num [round2, Loan.calculate_installment])
    rfl

/-! ### Characterising `Payment.list` and `fetch_balance` -/

/-- Subtracting each element in turn from a starting value subtracts the
sum. -/
theorem foldl_sub_eq_sub_sum (a : ℚ) (l : List Payment) :
    l.foldl (fun b p => b - p.amount) a = a - (l.map Payment.amount).sum := by
  induction l generalizing a with
  | nil => simp
  | cons p l ih =>
    simp only [List.foldl_cons, List.map_cons, List.sum_cons, ih]
    ring

/-- With no `until_date`, `Payment.list` succeeds and returns the spec's
filtered list with no cutoff. -/
theorem list_eq_spec_none (db : DB) (lid : String) (om : Bool) :
    Payment.list db lid none om = .ok (listSpec db lid none om) := by
  cases om <;>
    simp [Payment.list, listSpec, pyTruthy, cutoffBefore, List.filter_filter,
      Bool.and_comm]

/-- An empty-string `until_date` is falsy in Python: the date filter is
skipped entirely. -/
theorem list_empty_eq_list_none (db : DB) (lid : String) (om : Bool) :
    Payment.list db lid (some "") om = Payment.list db lid none om := by
  simp [Payment.list, pyTruthy]

/-- A non-empty `until_date` that does not parse makes `Payment.list` raise
`BadRequest`. -/
theorem list_parse_failure (db : DB) (lid : String) (s : String) (om : Bool)
    (hs : s ≠ "") (hp : parseIso s = none) :
    Payment.list db lid (some s) om =
      .error (.badRequest "Invalid 'until_date' provided, please use ISO-8601 standard") := by
  simp [Payment.list, pyTruthy, hs, hp]

/-- A parsing `until_date` filters inclusively: `Payment.list` returns the
spec's list at the parsed cutoff. -/
theorem list_eq_spec_parsed (db : DB) (lid : String) (s : String) (d : ℤ)
    (om : Bool) (hd : parseIso s = some d) :
    Payment.list db lid (some s) om = .ok (listSpec db lid (some d) om) := by
  have hs : s ≠ "" := by
    intro h
    subst h
    simp [parseIso] at hd
  cases om <;>
    simp [Payment.list, listSpec, pyTruthy, hs, hd, cutoffBefore,
      List.filter_filter, Bool.and_comm, Bool.and_assoc, Bool.and_left_comm]

/-- `fetch_balance` computes the spec's balance whenever the loan exists and
the listing succeeds on the spec's list. -/
theorem fetch_balance_eq_spec (db : DB) (lid : String) (ud : Option String)
    (loan : Loan) (c : Option ℤ) (hl : Loan.get db lid = .ok loan)
    (hc : Payment.list db lid ud true = .ok (listSpec db lid c true)) :
    fetch_balance db lid ud = .ok (balanceSpec db lid loan.amount c) := by
  unfold fetch_balance
  rw [hl, hc]
  simp [balanceSpec, foldl_sub_eq_sub_sum]

/-! ### C2: balance reconstruction -/

/-- Claim C2: for every existing loan and every absent-or-parsing cutoff date,
`fetch_balance` returns the loan's amount minus the sum of the amounts of the
loan's payments with status made whose date is up to and including the
cutoff (`balanceSpec`); payments with status missed are filtered out and
never reduce the balance. -/
theorem fetch_balance_reconstruction (db : DB) (lid : String)
    (ud : Option String) (loan : Loan) (hl : Loan.get db lid = .ok loan)
    (hud : ud = none ∨ ∃ s d, ud = some s ∧ parseIso s = some d) :
    fetch_balance db lid ud =
      .ok (balanceSpec db lid loan.amount (ud.bind parseIso)) := by
  rcases hud with rfl | ⟨s, d, rfl, hd⟩
  · exact fetch_balance_eq_spec db lid none loan none hl
      (list_eq_spec_none db lid true)
  · have h2 := fetch_balance_eq_spec db lid (some s) loan (some d) hl
      (list_eq_spec_parsed db lid s d true hd)
    simpa [hd] using h2

/-- Payments fixtures: two made payments and a missed one on `loanEx`. -/
def payMade1 : Payment := ⟨1, 150, 50, "made", "L1"⟩

/-- Second made payment, dated later. -/
def payMade2 : Payment := ⟨2, 250, 40, "made", "L1"⟩

/-- A missed payment on the same loan. -/
def payMissed : Payment := ⟨3, 160, 30, "missed", "L1"⟩

/-- Database with `loanEx` and the three payments above. -/
def dbPay : DB := ⟨[], [loanEx], [payMade1, payMade2, payMissed]⟩

/-- Witness for C2: on the concrete database, the balance up to date 200 is
the principal minus the single made payment in range. -/
theorem fetch_balance_reconstruction_witness :
    fetch_balance dbPay "L1" (some "200") =
      .ok (balanceSpec dbPay "L1" loanEx.amount ((some "200").bind parseIso)) :=
  fetch_balance_reconstruction dbPay "L1" (some "200") loanEx
    (by simp +decide [Loan.get, dbPay, loanEx])
    (Or.inr ⟨"200", 200, rfl, by decide⟩)

/-! ### C6: monotonicity and missed-payment invariance -/

/-- Filtering with a pointwise-stronger predicate keeps a sub-sum when all
amounts are nonnegative. -/
theorem sum_filter_le (l : List Payment) (f g : Payment → Bool)
    (hfg : ∀ p, f p = true → g p = true) (hpos : ∀ p ∈ l, 0 ≤ p.amount) :
    ((l.filter f).map Payment.amount).sum ≤
      ((l.filter g).map Payment.amount).sum := by
  induction l with
  | nil => simp
  | cons p l ih =>
    have hp : (0 : ℚ) ≤ p.amount := hpos p (by simp)
    have hrest : ∀ x ∈ l, 0 ≤ x.amount := fun x hx => hpos x (by simp [hx])
    by_cases hf : f p
    · have hg := hfg p hf
      simp only [List.filter_cons, hf, hg, if_pos, List.map_cons, List.sum_cons]
      exact add_le_add_left (ih hrest) _
    · by_cases hg : g p
      · simp only [List.filter_cons, hf, hg, if_pos, if_neg, Bool.false_eq_true,
          not_false_iff, List.map_cons, List.sum_cons]
        exact le_add_of_nonneg_of_le hp (ih hrest)
      · simp only [List.filter_cons, hf, hg, Bool.false_eq_true, if_neg,
          not_false_iff]
        exact ih hrest

/-- A payment whose status is not made never passes the spec's made-filter. -/
theorem listSpec_cons_non_made (db : DB) (q : Payment)
    (hqb : (q.payment == "made") = false) (lid : String) (c : Option ℤ) :
    listSpec { db with payments := q :: db.payments } lid c true =
      listSpec db lid c true := by
  unfold listSpec
  rw [List.filter_cons_of_neg (by simp [hqb])]

/-- Prepending a payment whose status is not made leaves
`Payment.list _ _ _ only_made=true` unchanged. -/
theorem list_cons_non_made (db : DB) (q : Payment) (hq : q.payment ≠ "made")
    (lid : String) (ud : Option String) :
    Payment.list { db with payments := q :: db.payments } lid ud true =
      Payment.list db lid ud true := by
  have hqb : (q.payment == "made") = false := by simpa using hq
  cases ud with
  | none =>
    rw [list_eq_spec_none, list_eq_spec_none, listSpec_cons_non_made db q hqb]
  | some s =>
    by_cases hs : s = ""
    · subst hs
      rw [list_empty_eq_list_none, list_empty_eq_list_none, list_eq_spec_none,
        list_eq_spec_none, listSpec_cons_non_made db q hqb]
    · cases hp : parseIso s with
      | none =>
        rw [list_parse_failure { db with payments := q :: db.payments } lid s
            true hs hp,
          list_parse_failure db lid s true hs hp]
      | some d =>
        rw [list_eq_spec_parsed { db with payments := q :: db.payments } lid s d
            true hp,
          list_eq_spec_parsed db lid s d true hp,
          listSpec_cons_non_made db q hqb]

/-- Claim C6: with an existing loan and nonnegative recorded amounts, the
balance is monotonically non-increasing as the (parsed) cutoff grows, and
adding a payment with status missed leaves `fetch_balance` unchanged at every
cutoff argument. -/
theorem fetch_balance_monotone_and_missed_invariant
    (db : DB) (lid : String) (loan : Loan) (hl : Loan.get db lid = .ok loan)
    (hpos : ∀ p ∈ db.payments, 0 ≤ p.amount)
    (s1 s2 : String) (d1 d2 : ℤ) (h1 : parseIso s1 = some d1)
    (h2 : parseIso s2 = some d2) (hle : d1 ≤ d2)
    (q : Payment) (hq : q.payment = "missed") (ud : Option String) :
    (∃ b1 b2, fetch_balance db lid (some s1) = .ok b1 ∧
      fetch_balance db lid (some s2) = .ok b2 ∧ b2 ≤ b1) ∧
    fetch_balance { db with payments := q :: db.payments } lid ud =
      fetch_balance db lid ud := by
  constructor
  · refine ⟨balanceSpec db lid loan.amount (some d1),
      balanceSpec db lid loan.amount (some d2),
      fetch_balance_eq_spec db lid (some s1) loan (some d1) hl
        (list_eq_spec_parsed db lid s1 d1 true h1),
      fetch_balance_eq_spec db lid (some s2) loan (some d2) hl
        (list_eq_spec_parsed db lid s2 d2 true h2), ?_⟩
    unfold balanceSpec listSpec
    have hsum := sum_filter_le db.payments
      (fun p => p.loan_id == lid && cutoffBefore (some d1) p.date &&
        (!true || p.payment == "made"))
      (fun p => p.loan_id == lid && cutoffBefore (some d2) p.date &&
        (!true || p.payment == "made"))
      (fun p hp => by
        simp only [Bool.and_eq_true, cutoffBefore, decide_eq_true_eq] at hp ⊢
        exact ⟨⟨hp.1.1, le_trans hp.1.2 hle⟩, hp.2⟩)
      hpos
    linarith
  · unfold fetch_balance
    rw [show Loan.get { db with payments := q :: db.payments } lid =
          Loan.get db lid from rfl,
        list_cons_non_made db q (by simp [hq]) lid ud]

/-- A second missed payment used to perturb the database. -/
def payMissed2 : Payment := ⟨4, 170, 25, "missed", "L1"⟩

/-- Witness for C6 on the concrete database: cutoffs 200 and 300, and the
extra missed payment `payMissed2`. -/
theorem fetch_balance_monotone_and_missed_invariant_witness :
    (∃ b1 b2, fetch_balance dbPay "L1" (some "200") = .ok b1 ∧
      fetch_balance dbPay "L1" (some "300") = .ok b2 ∧ b2 ≤ b1) ∧
    fetch_balance { dbPay with payments := payMissed2 :: dbPay.payments } "L1"
        (some "250") =
      fetch_balance dbPay "L1" (some "250") :=
  fetch_balance_monotone_and_missed_invariant dbPay "L1" loanEx
    (by simp +decide [Loan.get, dbPay, loanEx])
    (by
      simp only [dbPay, List.mem_cons, List.not_mem_nil, or_false]
      rintro p (rfl | rfl | rfl) <;> norm_num [payMade1, payMade2, payMissed])
    "200" "300" 200 300 (by decide) (by decide) (by decide)
    payMissed2 rfl (some "250")

/-! ### C5: until_date parsing and inclusive filtering -/

/-- Counterexample to C5 as stated: the empty string is an `until_date`
argument that does not parse as ISO-8601, yet `Payment.list` does not fail
with InvalidInput — Python truthiness (`if until_date:`) treats `""` like an
absent argument and skips both the parse and the date filter. -/
theorem list_empty_until_date_counterexample :
    parseIso "" = none ∧
    Payment.list dbPay "L1" (some "") true = .ok [payMade1, payMade2] := by
  refine ⟨by decide, ?_⟩
  simp +decide [Payment.list, pyTruthy, dbPay, payMade1, payMade2, payMissed]

/-- Claim C5 amended: a present non-empty `until_date` that does not parse
fails with InvalidInput; an empty-string `until_date` is treated as absent
(no cutoff); a parsing `until_date` yields exactly the loan's (made, when
`only_made`) payments with `date ≤ until_date`, inclusive. -/
theorem list_until_date_filtering (db : DB) (lid : String) (s : String)
    (d : ℤ) (om : Bool) :
    (s ≠ "" → parseIso s = none →
      Payment.list db lid (some s) om =
        .error (.badRequest "Invalid 'until_date' provided, please use ISO-8601 standard")) ∧
    (parseIso s = some d →
      Payment.list db lid (some s) om = .ok (listSpec db lid (some d) om)) ∧
    Payment.list db lid (some "") om = Payment.list db lid none om :=
  ⟨fun hs hp => list_parse_failure db lid s om hs hp,
   fun hd => list_eq_spec_parsed db lid s d om hd,
   list_empty_eq_list_none db lid om⟩

/-- Witness for C5 (amended): a malformed cutoff is rejected, and a parsing
cutoff produces the spec's inclusively filtered list. -/
theorem list_until_date_filtering_witness :
    Payment.list dbPay "L1" (some "abc") true =
      .error (.badRequest "Invalid 'until_date' provided, please use ISO-8601 standard") ∧
    Payment.list dbPay "L1" (some "200") true =
      .ok (listSpec dbPay "L1" (some 200) true) :=
  ⟨(list_until_date_filtering dbPay "L1" "abc" 0 true).1 (by decide) (by decide),
   (list_until_date_filtering dbPay "L1" "200" 200 true).2.1 (by decide)⟩

/-! ### C3 and C4: payment creation -/

/-- Every failure of the payment field validators is a `BadRequest`. -/
theorem mkPayment_error_badRequest (lid : String) (pl : PaymentPayload)
    (e : Err) (h : mkPayment lid pl = .error e) : ∃ m, e = .badRequest m := by
  unfold mkPayment at h
  split at h
  · exact ⟨_, by injection h with h; exact h.symm⟩
  split at h
  · exact ⟨_, by injection h with h; exact h.symm⟩
  split at h
  · exact ⟨_, by injection h with h; exact h.symm⟩
  split at h
  · exact ⟨_, by injection h with h; exact h.symm⟩
  split at h
  · exact ⟨_, by injection h with h; exact h.symm⟩
  split at h
  · exact ⟨_, by injection h with h; exact h.symm⟩
  simp at h

/-- A payment accepted by the validators carries the parsed date and the
loan id it was constructed with. -/
theorem mkPayment_ok_inv (lid : String) (pl : PaymentPayload) (q : Payment)
    (h : mkPayment lid pl = .ok q) :
    q.loan_id = lid ∧ ∃ s, pl.date = some s ∧ parseIso s = some q.date := by
  unfold mkPayment at h
  split at h
  · simp at h
  split at h
  · simp at h
  split at h
  · simp at h
  split at h
  · simp at h
  split at h
  · simp at h
  split at h
  · simp at h
  injection h with h
  subst h
  exact ⟨rfl, _, by assumption, by assumption⟩

/-- Claim C3: for every payment payload whose (parsed) date is strictly
before the owning loan's date, `create_payment` fails with an `InvalidInput`
(`BadRequest`) error whatever the other fields are — so nothing is persisted —
and when the other fields are valid the message is exactly the
prior-to-loan-date one. -/
theorem create_payment_rejects_prior_date
    (db : DB) (lid : String) (pl : PaymentPayload) (loan : Loan) (s : String)
    (d : ℤ) (hl : Loan.get db lid = .ok loan) (hs : pl.date = some s)
    (hd : parseIso s = some d) (hlt : d < loan.date) :
    (create_payment db lid pl).isBadRequest = true ∧
    (∀ q, mkPayment lid pl = .ok q →
      create_payment db lid pl =
        .error (.badRequest "Payment cannot be executed prior to loan date")) := by
  have key : ∀ q, mkPayment lid pl = .ok q →
      create_payment db lid pl =
        .error (.badRequest "Payment cannot be executed prior to loan date") := by
    intro q hmk
    obtain ⟨hqlid, s', hs', hd'⟩ := mkPayment_ok_inv lid pl q hmk
    rw [hs] at hs'
    injection hs' with e
    subst e
    rw [hd'] at hd
    injection hd with e
    have hcp : create_payment db lid pl = Payment.create db q := by
      unfold create_payment
      rw [hmk]
    rw [hcp]
    unfold Payment.create
    rw [hqlid, hl]
    have hgt : loan.date > q.date := by rw [e]; exact hlt
    simp [hgt]
  refine ⟨?_, key⟩
  have c1 : ∃ m, create_payment db lid pl = .error (.badRequest m) := by
    cases hmk : mkPayment lid pl with
    | error e =>
      obtain ⟨m, rfl⟩ := mkPayment_error_badRequest lid pl e hmk
      exact ⟨m, by unfold create_payment; rw [hmk]⟩
    | ok q => exact ⟨_, key q hmk⟩
  obtain ⟨m, hm⟩ := c1
  rw [hm]
  rfl

/-- A payment payload dated before `loanEx`'s date with valid other fields. -/
def plPrior : PaymentPayload := ⟨some "50", some 10, some "made"⟩

/-- Witness for C3: against `loanEx` (date 100), a payment dated 50 is
rejected with the prior-to-loan-date message. -/
theorem create_payment_rejects_prior_date_witness :
    (create_payment dbPay "L1" plPrior).isBadRequest = true ∧
    (∀ q, mkPayment "L1" plPrior = .ok q →
      create_payment dbPay "L1" plPrior =
        .error (.badRequest "Payment cannot be executed prior to loan date")) :=
  create_payment_rejects_prior_date dbPay "L1" plPrior loanEx "50" 50
    (by simp +decide [Loan.get, dbPay, loanEx]) rfl (by decide)
    (by norm_num [loanEx])

/-- A payment payload with a valid date and status but an invalid
(non-positive) amount. -/
def plBadAmount : PaymentPayload := ⟨some "150", some (-1), some "made"⟩

/-- Counterexample to C4 as stated: loan `L0` does not exist in the empty
database, yet `create_payment` with an invalid amount fails with the field's
`BadRequest`, not with `NotFound` — field validation at `Payment(**payload)`
construction runs before the loan fetch in `Payment.create`. -/
theorem create_payment_validation_precedes_fetch :
    Loan.get dbEmpty "L0" = .error (.notFound "Loan 'L0' not found") ∧
    create_payment dbEmpty "L0" plBadAmount =
      .error (.badRequest "'amount' must be a positive value") := by
  constructor
  · rfl
  · simp +decide [create_payment, mkPayment, plBadAmount, parseIso, digitsToNat,
      digit?]

/-- Claim C4 amended: when the payload passes field validation and the
referenced loan does not exist, `create_payment` fails with `NotFound`
(and nothing is persisted); when a field is invalid, the construction-time
validators fail first, before the loan fetch. -/
theorem create_payment_absent_loan_notfound
    (db : DB) (lid : String) (pl : PaymentPayload) (q : Payment)
    (hq : mkPayment lid pl = .ok q)
    (habs : db.loans.find? (fun l => l.id == lid) = none) :
    create_payment db lid pl =
      .error (.notFound ("Loan '" ++ lid ++ "' not found")) := by
  have hcp : create_payment db lid pl = Payment.create db q := by
    unfold create_payment
    rw [hq]
  rw [hcp]
  unfold Payment.create
  rw [(mkPayment_ok_inv lid pl q hq).1]
  unfold Loan.get
  rw [habs]

/-- A fully valid payment payload. -/
def plGood : PaymentPayload := ⟨some "150", some 10, some "made"⟩

/-- Witness for C4 (amended): a valid payload against the empty database
fails with `NotFound`. -/
theorem create_payment_absent_loan_notfound_witness :
    create_payment dbEmpty "L0" plGood =
      .error (.notFound ("Loan '" ++ "L0" ++ "' not found")) :=
  create_payment_absent_loan_notfound dbEmpty "L0" plGood ⟨0, 150, 10, "made", "L0"⟩
    (by
      simp +decide [mkPayment, plGood, parseIso, digitsToNat, digit?]
      norm_num [round2])
    rfl

/-! ### C7: indistinguishable login failures -/

/-- Claim C7: `User.login` fails with the identical message
`User '<email>' login failed` whether the email is unknown or the stored hash
does not match, for any hash function, databases and passwords — the two
failure causes are indistinguishable to the caller. -/
theorem login_failure_indistinguishable
    (hashpw : String → String → String) (now1 now2 : ℤ) (db1 db2 : DB)
    (email pw1 pw2 : String)
    (h1 : db1.users.find? (fun u => u.email == email) = none)
    (h2 : ∃ u, db2.users.find? (fun v => v.email == email) = some u ∧
      u.h_password ≠ hashpw pw2 u.salt) :
    User.login hashpw now1 db1 email pw1 =
      .error (.badRequest ("User '" ++ email ++ "' login failed")) ∧
    User.login hashpw now2 db2 email pw2 =
      User.login hashpw now1 db1 email pw1 := by
  obtain ⟨u, hu, hne⟩ := h2
  have l1 : User.login hashpw now1 db1 email pw1 =
      .error (.badRequest ("User '" ++ email ++ "' login failed")) := by
    unfold User.login
    rw [h1]
  have l2 : User.login hashpw now2 db2 email pw2 =
      .error (.badRequest ("User '" ++ email ++ "' login failed")) := by
    unfold User.login
    rw [hu]
    simp [hne]
  exact ⟨l1, l2.trans l1.symm⟩

/-- Toy stand-in for bcrypt in the witness: concatenation. -/
def hashpwEx (password salt : String) : String := password ++ salt

/-- A stored user record for the witness. -/
def userEx : User := ⟨"u1", "a@b.test", "HASH", "S"⟩

/-- Database containing `userEx`. -/
def dbUser : DB := ⟨[userEx], [], []⟩

/-- Witness for C7: unknown email against the empty database and wrong
password against `dbUser` produce the identical error. -/
theorem login_failure_indistinguishable_witness :
    User.login hashpwEx 0 dbEmpty "a@b.test" "pw" =
      .error (.badRequest ("User '" ++ "a@b.test" ++ "' login failed")) ∧
    User.login hashpwEx 7 dbUser "a@b.test" "wrong" =
      User.login hashpwEx 0 dbEmpty "a@b.test" "pw" :=
  login_failure_indistinguishable hashpwEx 0 7 dbEmpty dbUser "a@b.test" "pw"
    "wrong" rfl ⟨userEx, by decide, by decide⟩

/-! ### C8: duplicate registration is a silent no-op -/

/-- Claim C8: for every email already present (and well formed, per the data
model invariant), `User.register` does not raise and leaves the database —
hence the stored record for that email — unchanged. -/
theorem register_duplicate_silent_noop
    (hashpw : String → String → String) (id salt : String) (db : DB)
    (e password : String) (u : User) (hu : u ∈ db.users) (he : u.email = e)
    (hat : e.data.contains '@' = true) :
    User.register hashpw id salt db (some e) password = .ok db := by
  unfold User.register
  have hay : db.users.any (fun v => v.email == e) = true := by
    rw [List.any_eq_true]
    exact ⟨u, hu, by simp [he]⟩
  have hat' : '@' ∈ e.data := by simpa using hat
  simp [hat', hay]

/-- Witness for C8: re-registering `userEx`'s email leaves `dbUser`
unchanged. -/
theorem register_duplicate_silent_noop_witness :
    User.register hashpwEx "u2" "S2" dbUser "a@b.test" "pw2" = .ok dbUser :=
  register_duplicate_silent_noop hashpwEx "u2" "S2" dbUser "a@b.test" "pw2"
    userEx (by simp [dbUser]) rfl (by decide)

/-! ### C9: expired versus invalid token reporting -/

/-- Claim C9 (code evaluation): a correctly signed token whose `exp` has
passed is rejected with the message `Token is expired`, while a token whose
signature cannot be verified is rejected with `Token is invalid` — the two
reports differ, contrary to the spec and to the repository's own test
`test_user_authenticate_expired_token_failure`, which asserts `Token is
invalid` for the expired case; a decodable payload lacking `user_id` is
rejected as `Token is corrupted`. -/
theorem authenticate_expired_reported_differently :
    User.authenticate 1000 dbEmpty (some (Jwt.signed ⟨some "u1", 0⟩)) =
      .error (.badRequest "Token is expired") ∧
    User.authenticate 1000 dbEmpty (some Jwt.malformed) =
      .error (.badRequest "Token is invalid") ∧
    User.authenticate 1000 dbEmpty (some (Jwt.signed ⟨none, 2000⟩)) =
      .error (.badRequest "Token is corrupted") ∧
    Err.badRequest "Token is expired" ≠ Err.badRequest "Token is invalid" := by
  exact ⟨rfl, rfl, rfl, by decide⟩
